import Mathlib

/-!
A shallow embedding of `src/main.py` (the Streamlit "Event Management AI
Planner" script) and proofs of the specification claims about it.

Modelling conventions:
* Python strings are Lean `String`s; the modelled input domain is ASCII
  (Unicode digit-like characters and Unicode whitespace, which Python's
  `str.isdigit` / `float` additionally accept, are outside the modelled
  domain).
* Python `float` values are modelled exactly as scaled decimals
  `num / 10 ^ scale` plus the special values `nan`, `inf`, `-inf` (type
  `PyFloat`); binary rounding of decimal literals is idealised away, which
  never changes the sign comparisons the script performs on realistic
  inputs.
* Side effects (Streamlit messages, `os.environ` assignments, the
  `Crew.kickoff` call) are accumulated in a `RunOutcome` record; an
  uncaught Python exception is `RunOutcome.exc = some e`.
* The external orchestration engine (`Crew.kickoff`) and the filesystem
  state after it are inputs to the model (`kick`, `fs`), since they are
  external collaborators of the script.
-/

namespace EventPlanner

/-! ## Python exceptions -/

/-- The Python exceptions the script can raise or catch. -/
inductive PyExc where
  | nameError (msg : String)
  | typeError (msg : String)
  | valueError (msg : String)
  | keyError (key : String)
  | jsonDecodeError (msg : String)
  deriving DecidableEq, Repr

/-- `str(e)` for the exceptions above: `KeyError` stringifies to the
`repr` of the missing key, the others to their message. -/
def PyExc.str : PyExc → String
  | .nameError m => m
  | .typeError m => m
  | .valueError m => m
  | .keyError k => "'" ++ k ++ "'"
  | .jsonDecodeError m => m

/-! ## Python `str.strip`, `str.isdigit` and `int(...)` on the ASCII domain -/

/-- ASCII whitespace as Python `str.strip()` sees it: space, `\t`, `\n`,
`\v`, `\f`, `\r`. -/
def isPySpace (c : Char) : Bool :=
  c.toNat = 32 ∨ (9 ≤ c.toNat ∧ c.toNat ≤ 13)

/-- A decimal digit `0`-`9`. -/
def isDigitChar (c : Char) : Bool :=
  48 ≤ c.toNat ∧ c.toNat ≤ 57

/-- Python `s.strip()` on the ASCII domain: drop leading and trailing
whitespace. -/
def pyStrip (s : String) : String :=
  String.mk (((s.toList.dropWhile isPySpace).reverse.dropWhile isPySpace).reverse)

/-- Python `str.isdigit()` restricted to ASCII strings: true iff the string
is non-empty and every character is a decimal digit `0`-`9`. -/
def pyIsdigit (s : String) : Bool :=
  !s.isEmpty && s.toList.all isDigitChar

/-- Value of a non-empty decimal digit string (what `int(s)` returns when
`s.isdigit()` holds). -/
def digitsVal (s : String) : Int :=
  s.toList.foldl (fun acc c => acc * 10 + (c.toNat - 48)) 0

/-- The digit scanner of `int(s)`: reads decimal digits with single
underscores permitted between digits, accumulating the value; `none` when
no digit was read or an underscore is misplaced or a foreign character
appears. -/
def intDigitsU : List Char → Option Nat → Bool → Option Nat
  | [], acc, afterUnd => if afterUnd then none else acc
  | c :: cs, acc, afterUnd =>
    if isDigitChar c then
      intDigitsU cs (some ((acc.getD 0) * 10 + (c.toNat - 48))) false
    else if c = '_' then
      match acc, afterUnd with
      | some a, false => intDigitsU cs (some a) true
      | _, _ => none
    else none

/-- Python `int(s)` on ASCII strings: strips whitespace, allows one leading
sign, then requires at least one decimal digit, with single underscores
permitted between digits. Returns `none` where Python raises `ValueError`. -/
def pyIntParse (s : String) : Option Int :=
  let t := (pyStrip s).toList
  let (sign, rest) :=
    match t with
    | c :: r =>
      if c = '+' then ((1 : Int), r)
      else if c = '-' then ((-1 : Int), r)
      else ((1 : Int), c :: r)
    | [] => ((1 : Int), [])
  match intDigitsU rest none false with
  | some n => some (sign * n)
  | none => none

/-! ## Python `float(...)` -/

/-- A Python float: an exact scaled decimal `num / 10 ^ scale`, or one of
the special values. (Exact decimals avoid binary rounding, which never
changes the sign comparisons the script performs; the scaled-integer form
is chosen over `ℚ` so that concrete runs reduce inside the kernel.) -/
inductive PyFloat where
  | finite (num : Int) (scale : Nat)
  | nan
  | inf
  | neginf
  deriving DecidableEq, Repr

/-- The rational value of a finite Python float. -/
def PyFloat.toRat : PyFloat → Option ℚ
  | .finite n s => some ((n : ℚ) / (10 : ℚ) ^ s)
  | _ => none

/-- The comparison `x <= 0` on a Python float: false for `nan` and `inf`,
true for `-inf`, the sign of the numerator otherwise. -/
def PyFloat.le0 : PyFloat → Bool
  | .finite n _ => decide (n ≤ 0)
  | .nan => false
  | .inf => false
  | .neginf => true

/-- Strict positivity of a Python float (`nan` is not positive). -/
def PyFloat.isPos : PyFloat → Bool
  | .finite n _ => decide (0 < n)
  | .nan => false
  | .inf => true
  | .neginf => false

/-- `le0` agrees with the comparison of the rational value: the sign of
the numerator is the sign of `num / 10 ^ scale`. -/
theorem PyFloat.le0_iff_toRat (n : Int) (s : Nat) :
    (PyFloat.finite n s).le0 = true ↔ (n : ℚ) / (10 : ℚ) ^ s ≤ 0 := by
  have hpow : (0 : ℚ) < (10 : ℚ) ^ s := by positivity
  simp only [PyFloat.le0, decide_eq_true_eq]
  rw [div_nonpos_iff]
  constructor
  · intro h
    exact Or.inr ⟨by exact_mod_cast h, le_of_lt hpow⟩
  · rintro (⟨_, h2⟩ | ⟨h1, _⟩)
    · exact absurd h2 (not_le.mpr hpow)
    · exact_mod_cast h1

/-- `isPos` agrees with strict positivity of the rational value. -/
theorem PyFloat.isPos_iff_toRat (n : Int) (s : Nat) :
    (PyFloat.finite n s).isPos = true ↔ 0 < (n : ℚ) / (10 : ℚ) ^ s := by
  have hpow : (0 : ℚ) < (10 : ℚ) ^ s := by positivity
  simp only [PyFloat.isPos, decide_eq_true_eq]
  rw [div_pos_iff]
  constructor
  · intro h
    exact Or.inl ⟨by exact_mod_cast h, hpow⟩
  · rintro (⟨h1, _⟩ | ⟨_, h2⟩)
    · exact_mod_cast h1
    · exact absurd h2 (not_lt.mpr (le_of_lt hpow))

/-- Reads a run of decimal digits possibly containing single underscores
between digits (Python numeric-literal rule). Returns the digits (without
underscores) and the rest; `none` digits means the run was absent. Fails
(overall `none`) on a misplaced underscore. -/
def takeDigitsU : List Char → Option (List Char × List Char)
  | cs =>
    let rec go : List Char → List Char → Bool → Option (List Char × List Char)
      | [], acc, afterUnd => if afterUnd then none else some (acc.reverse, [])
      | '_' :: rest, acc, false =>
        if acc.isEmpty then some (acc.reverse, '_' :: rest)
        else go rest acc true
      | c :: rest, acc, afterUnd =>
        if isDigitChar c then go rest (c :: acc) false
        else if afterUnd then none
        else some (acc.reverse, c :: rest)
    go cs [] false

/-- Natural-number value of a digit list. -/
def digitsToNat (ds : List Char) : Nat :=
  ds.foldl (fun acc c => acc * 10 + (c.toNat - 48)) 0

/-- Python `float(s)` on ASCII strings, idealised to exact rationals:
strips whitespace, an optional sign, then case-insensitively `inf`,
`infinity` or `nan`, or a decimal literal `digits [. digits] [e sign
digits]` with at least one mantissa digit (underscores allowed between
digits). Returns `none` exactly where Python raises `ValueError`.
(Binary rounding and overflow to `inf` are not modelled.) -/
def pyFloatParse (s : String) : Option PyFloat :=
  let t := (pyStrip s).toList
  let (sign, rest) :=
    match t with
    | '+' :: r => ((1 : Int), r)
    | '-' :: r => ((-1 : Int), r)
    | r => (1, r)
  let low := String.mk (rest.map Char.toLower)
  if low = "inf" ∨ low = "infinity" then
    some (if sign = 1 then .inf else .neginf)
  else if low = "nan" then
    some .nan
  else
    match takeDigitsU rest with
    | none => none
    | some (ipart, rest1) =>
      let (fpart, rest2) :=
        match rest1 with
        | '.' :: r =>
          match takeDigitsU r with
          | some (f, r') => (some f, r')
          | none => (some [], r)
        | r => (none, r)
      let fdigits := fpart.getD []
      if ipart.isEmpty ∧ fdigits.isEmpty then none
      else
        let mant : Int :=
          sign * (digitsToNat ipart * 10 ^ fdigits.length + digitsToNat fdigits)
        let scale := fdigits.length
        let readExp : List Char → Option ℤ := fun r =>
          let (esign, r') :=
            match r with
            | '+' :: r' => ((1 : Int), r')
            | '-' :: r' => ((-1 : Int), r')
            | r' => (1, r')
          match takeDigitsU r' with
          | some (eds, []) => if eds.isEmpty then none else some (esign * digitsToNat eds)
          | _ => none
        let applyExp : ℤ → PyFloat := fun e =>
          if 0 ≤ e then .finite (mant * 10 ^ e.toNat) scale
          else .finite mant (scale + (-e).toNat)
        match rest2 with
        | [] => some (.finite mant scale)
        | 'e' :: r => (readExp r).map applyExp
        | 'E' :: r => (readExp r).map applyExp
        | _ => none

/-! ## JSON values, `json.load`-style parsing, `json.dumps(..., indent=2)`

The script parses artifact files with `json.load` and re-serialises the
parsed value with `json.dumps(value, indent=2)` (default `ensure_ascii`).
`jint` is a JSON number without fraction/exponent (a Python `int`);
`jnum` is any other number, idealised as an exact rational. Objects keep
insertion order with last-value-wins for duplicate keys, as Python dicts
do. `\uXXXX` escapes are supported for non-surrogate code points;
surrogate pairs are outside the modelled domain. -/

inductive JVal where
  | jnull
  | jbool (b : Bool)
  | jint (n : Int)
  | jnum (q : ℚ)
  | jstr (s : String)
  | jarr (xs : List JVal)
  | jobj (kvs : List (String × JVal))
  deriving Repr

/-- Assoc-list lookup (first match; the parser keeps keys unique). -/
def lookupKV (kvs : List (String × JVal)) (k : String) : Option JVal :=
  match kvs with
  | [] => none
  | (k', v) :: rest => if k' = k then some v else lookupKV rest k

/-- Insert a key into an object the way a Python dict does: replace the
value in place if the key exists, append otherwise. -/
def insertKV : List (String × JVal) → String → JVal → List (String × JVal)
  | [], k, v => [(k, v)]
  | (k', v') :: rest, k, v =>
    if k' = k then (k, v) :: rest else (k', v') :: insertKV rest k v

/-- Skip JSON whitespace. -/
def skipWs (cs : List Char) : List Char :=
  cs.dropWhile (fun c => c = ' ' ∨ c = '\t' ∨ c = '\n' ∨ c = '\r')

/-- Value of a hex digit, if the character is one. -/
def hexDigitVal (c : Char) : Option Nat :=
  if '0' ≤ c ∧ c ≤ '9' then some (c.toNat - 48)
  else if 'a' ≤ c ∧ c ≤ 'f' then some (c.toNat - 87)
  else if 'A' ≤ c ∧ c ≤ 'F' then some (c.toNat - 55)
  else none

/-- Parse the body of a JSON string (after the opening quote) with the
standard escapes. Rejects raw control characters (as Python's strict
decoder does) and surrogate `\u` escapes. -/
def parseStrBody : List Char → List Char → Option (String × List Char)
  | [], _ => none
  | '"' :: rest, acc => some (String.mk acc.reverse, rest)
  | '\\' :: rest, acc =>
    match rest with
    | [] => none
    | e :: rest' =>
      match e with
      | '"' => parseStrBody rest' ('"' :: acc)
      | '\\' => parseStrBody rest' ('\\' :: acc)
      | '/' => parseStrBody rest' ('/' :: acc)
      | 'b' => parseStrBody rest' (Char.ofNat 8 :: acc)
      | 'f' => parseStrBody rest' (Char.ofNat 12 :: acc)
      | 'n' => parseStrBody rest' ('\n' :: acc)
      | 'r' => parseStrBody rest' ('\r' :: acc)
      | 't' => parseStrBody rest' ('\t' :: acc)
      | 'u' =>
        match rest' with
        | h1 :: h2 :: h3 :: h4 :: rest'' =>
          match hexDigitVal h1, hexDigitVal h2, hexDigitVal h3, hexDigitVal h4 with
          | some a, some b, some c, some d =>
            let code := a * 4096 + b * 256 + c * 16 + d
            if 0xD800 ≤ code ∧ code < 0xE000 then none
            else parseStrBody rest'' (Char.ofNat code :: acc)
          | _, _, _, _ => none
        | _ => none
      | _ => none
  | c :: rest, acc =>
    if c.toNat < 0x20 then none else parseStrBody rest (c :: acc)

/-- Maximal run of decimal digits. -/
def takeDigits (cs : List Char) : List Char × List Char :=
  (cs.takeWhile isDigitChar, cs.dropWhile isDigitChar)

/-- Parse a JSON number (strict JSON grammar: optional `-`, integer part
without leading zeros, optional fraction, optional exponent). A number
with no fraction and no exponent is a Python `int` (`jint`). -/
def parseNum (cs : List Char) : Option (JVal × List Char) :=
  let (sign, r1) :=
    match cs with
    | '-' :: r => ((-1 : Int), r)
    | r => ((1 : Int), r)
  let (ids, r2) := takeDigits r1
  if ids.isEmpty then none
  else if ids.length > 1 ∧ ids.head? = some '0' then none
  else
    let (fds, r3, hasFrac) :=
      match r2 with
      | '.' :: r =>
        let (f, r') := takeDigits r
        (f, r', true)
      | r => ([], r, false)
    if hasFrac ∧ fds.isEmpty then none
    else
      let mantissa : ℚ :=
        (digitsToNat ids : ℚ) + (digitsToNat fds : ℚ) / ((10 : ℚ) ^ fds.length)
      let expCase : List Char → Option (JVal × List Char) := fun r =>
        let (es, r') :=
          match r with
          | '+' :: r' => ((1 : Int), r')
          | '-' :: r' => ((-1 : Int), r')
          | r' => (1, r')
        let (eds, r'') := takeDigits r'
        if eds.isEmpty then none
        else some (.jnum ((sign : ℚ) * mantissa * (10 : ℚ) ^ (es * (digitsToNat eds : Int))), r'')
      match r3 with
      | 'e' :: r => expCase r
      | 'E' :: r => expCase r
      | r =>
        if hasFrac then some (.jnum ((sign : ℚ) * mantissa), r)
        else some (.jint (sign * digitsToNat ids), r)

mutual

/-- Parse one JSON value (fuel-indexed recursive descent). -/
def parseVal : Nat → List Char → Option (JVal × List Char)
  | 0, _ => none
  | n + 1, cs =>
    match skipWs cs with
    | '{' :: rest =>
      (match skipWs rest with
       | '}' :: rest' => some (.jobj [], rest')
       | _ => parseObjItems n rest [])
    | '[' :: rest =>
      (match skipWs rest with
       | ']' :: rest' => some (.jarr [], rest')
       | _ => parseArrItems n rest [])
    | '"' :: rest =>
      (match parseStrBody rest [] with
       | some (s, rest') => some (.jstr s, rest')
       | none => none)
    | 't' :: 'r' :: 'u' :: 'e' :: rest => some (.jbool true, rest)
    | 'f' :: 'a' :: 'l' :: 's' :: 'e' :: rest => some (.jbool false, rest)
    | 'n' :: 'u' :: 'l' :: 'l' :: rest => some (.jnull, rest)
    | cs' => parseNum cs'

/-- Parse the members of a non-empty JSON object, accumulating into a
Python-dict-style assoc list. -/
def parseObjItems : Nat → List Char → List (String × JVal) → Option (JVal × List Char)
  | 0, _, _ => none
  | n + 1, cs, acc =>
    match skipWs cs with
    | '"' :: rest =>
      (match parseStrBody rest [] with
       | some (k, rest1) =>
         (match skipWs rest1 with
          | ':' :: rest2 =>
            (match parseVal n rest2 with
             | some (v, rest3) =>
               let acc' := insertKV acc k v
               (match skipWs rest3 with
                | ',' :: rest4 => parseObjItems n rest4 acc'
                | '}' :: rest4 => some (.jobj acc', rest4)
                | _ => none)
             | none => none)
          | _ => none)
       | none => none)
    | _ => none

/-- Parse the elements of a non-empty JSON array. -/
def parseArrItems : Nat → List Char → List JVal → Option (JVal × List Char)
  | 0, _, _ => none
  | n + 1, cs, acc =>
    match parseVal n cs with
    | some (v, rest) =>
      (match skipWs rest with
       | ',' :: rest' => parseArrItems n rest' (acc ++ [v])
       | ']' :: rest' => some (.jarr (acc ++ [v]), rest')
       | _ => none)
    | none => none

end

/-- Python `json.loads` on the modelled domain: parse one value and
require only whitespace after it; `none` where Python raises
`json.JSONDecodeError`. -/
def parseJson (s : String) : Option JVal :=
  match parseVal (4 * s.length + 8) s.toList with
  | some (v, rest) => if (skipWs rest).isEmpty then some v else none
  | none => none

/-! ### Serialisation -/

/-- `n` spaces. -/
def spaces (n : Nat) : String :=
  String.mk (List.replicate n ' ')

/-- One hex digit, lowercase. -/
def hexDigitChar (n : Nat) : Char :=
  if n < 10 then Char.ofNat (48 + n) else Char.ofNat (87 + n)

/-- Four lowercase hex digits. -/
def hex4 (n : Nat) : String :=
  String.mk [hexDigitChar (n / 4096 % 16), hexDigitChar (n / 256 % 16),
             hexDigitChar (n / 16 % 16), hexDigitChar (n % 16)]

/-- How `json.dumps` (default `ensure_ascii=True`) writes one character
inside a string: printable ASCII verbatim, the short escapes, `\uXXXX`
(surrogate pairs above the BMP) otherwise. -/
def jsonEscapeChar (c : Char) : String :=
  if c = '"' then "\\\""
  else if c = '\\' then "\\\\"
  else if c = '\n' then "\\n"
  else if c = '\r' then "\\r"
  else if c = '\t' then "\\t"
  else if c.toNat = 8 then "\\b"
  else if c.toNat = 12 then "\\f"
  else if c.toNat < 0x20 ∨ c.toNat > 0x7E then
    if c.toNat ≤ 0xFFFF then "\\u" ++ hex4 c.toNat
    else
      let v := c.toNat - 0x10000
      "\\u" ++ hex4 (0xD800 + v / 0x400) ++ "\\u" ++ hex4 (0xDC00 + v % 0x400)
  else String.mk [c]

/-- A JSON string literal as `json.dumps` writes it. -/
def jsonQuote (s : String) : String :=
  "\"" ++ String.join (s.toList.map jsonEscapeChar) ++ "\""

/-- Exact decimal rendering of the rationals `jnum` can hold (denominator
dividing a power of ten); used for both `json.dumps` and `str()`. Python's
shortest-round-trip float repr is idealised to this exact form; no claim
under verification serialises a non-integer number. -/
def decimalRepr (q : ℚ) : String :=
  let sgn := if q < 0 then "-" else ""
  let a : ℚ := |q|
  let rec findK : Nat → Nat → Option Nat
    | 0, _ => none
    | fuel + 1, k => if (a * (10 : ℚ) ^ k).den = 1 then some k else findK fuel (k + 1)
  match findK 500 0 with
  | some 0 => sgn ++ toString a.num ++ ".0"
  | some k =>
    let n := (a * (10 : ℚ) ^ k).num.toNat
    let ip := n / 10 ^ k
    let fp := n % 10 ^ k
    let fs := toString fp
    sgn ++ toString ip ++ "." ++ String.mk (List.replicate (k - fs.length) '0') ++ fs
  | none => sgn ++ toString a.num ++ "/" ++ toString a.den

mutual

/-- `json.dumps(v, indent=2)` at current indent `ind` (the script always
calls it at top level, `ind = 0`). -/
def dumpsVal (ind : Nat) : JVal → String
  | .jnull => "null"
  | .jbool true => "true"
  | .jbool false => "false"
  | .jint n => toString n
  | .jnum q => decimalRepr q
  | .jstr s => jsonQuote s
  | .jarr [] => "[]"
  | .jarr (x :: xs) => "[\n" ++ dumpsItems (ind + 2) (x :: xs) ++ "\n" ++ spaces ind ++ "]"
  | .jobj [] => "\x7b\x7d"
  | .jobj (kv :: kvs) => "\x7b\n" ++ dumpsMembers (ind + 2) (kv :: kvs) ++ "\n" ++ spaces ind ++ "\x7d"

/-- Array elements, one per line, comma-separated. -/
def dumpsItems (ind : Nat) : List JVal → String
  | [] => ""
  | [x] => spaces ind ++ dumpsVal ind x
  | x :: y :: xs => spaces ind ++ dumpsVal ind x ++ ",\n" ++ dumpsItems ind (y :: xs)

/-- Object members, one per line, `"key": value`. -/
def dumpsMembers (ind : Nat) : List (String × JVal) → String
  | [] => ""
  | [(k, v)] => spaces ind ++ jsonQuote k ++ ": " ++ dumpsVal ind v
  | (k, v) :: m :: kvs =>
    spaces ind ++ jsonQuote k ++ ": " ++ dumpsVal ind v ++ ",\n" ++ dumpsMembers ind (m :: kvs)

end

mutual

/-- Python `repr` of a parsed-JSON value (used by `str()` on containers).
Quote escaping inside `repr` of strings is not modelled; no claim
exercises it. -/
def pyRepr : JVal → String
  | .jnull => "None"
  | .jbool true => "True"
  | .jbool false => "False"
  | .jint n => toString n
  | .jnum q => decimalRepr q
  | .jstr s => "'" ++ s ++ "'"
  | .jarr xs => "[" ++ pyReprList xs ++ "]"
  | .jobj kvs => "\x7b" ++ pyReprMembers kvs ++ "\x7d"

/-- Comma-separated `repr`s of list elements. -/
def pyReprList : List JVal → String
  | [] => ""
  | [x] => pyRepr x
  | x :: y :: xs => pyRepr x ++ ", " ++ pyReprList (y :: xs)

/-- Comma-separated `repr`s of dict items. -/
def pyReprMembers : List (String × JVal) → String
  | [] => ""
  | [(k, v)] => "'" ++ k ++ "': " ++ pyRepr v
  | (k, v) :: m :: kvs => "'" ++ k ++ "': " ++ pyRepr v ++ ", " ++ pyReprMembers (m :: kvs)

end

/-- Python `str()` of a parsed-JSON value, as an f-string interpolates it. -/
def pyStrOf : JVal → String
  | .jstr s => s
  | .jnull => "None"
  | .jbool true => "True"
  | .jbool false => "False"
  | .jint n => toString n
  | .jnum q => decimalRepr q
  | .jarr xs => pyRepr (.jarr xs)
  | .jobj kvs => pyRepr (.jobj kvs)

/-! ## Streamlit output and the rendering sections -/

/-- One Streamlit output call, in emission order. -/
inductive Msg where
  | error (s : String)
  | success (s : String)
  | info (s : String)
  | warning (s : String)
  | markdown (s : String)
  | subheader (s : String)
  | downloadButton (label content fileName : String)
  deriving DecidableEq, Repr

/-- `venue[key]` / `report[key]`: Python `dict` subscription on a parsed
JSON value. `KeyError` on a missing key; `TypeError` when the value is not
a dict (the per-type Python message texts are not distinguished). -/
def getItem (v : JVal) (k : String) : Except PyExc JVal :=
  match v with
  | .jobj kvs =>
    match lookupKV kvs k with
    | some x => .ok x
    | none => .error (.keyError k)
  | _ => .error (.typeError "value is not subscriptable with a string key")

/-- Python iteration over a parsed JSON value (`for c in report["campaigns"]`):
lists yield elements, strings yield characters, dicts yield keys, anything
else raises `TypeError`. -/
def pyIter (v : JVal) : Except PyExc (List JVal) :=
  match v with
  | .jarr xs => .ok xs
  | .jstr s => .ok (s.toList.map (fun c => .jstr (String.mk [c])))
  | .jobj kvs => .ok (kvs.map (fun kv => JVal.jstr kv.1))
  | _ => .error (.typeError "object is not iterable")

/-- The `try:` body of the venue-details section (src/main.py lines
199-212): parse the file, interpolate the four fields into the markdown
f-string (accessed in source order, so the first missing key raises), then
offer the `json.dumps(venue, indent=2)` download. -/
def venueTryBody (content : String) : Except PyExc (List Msg) := do
  match parseJson content with
  | none => throw (.jsonDecodeError "Expecting value")
  | some venue => do
    let name ← getItem venue "name"
    let addr ← getItem venue "address"
    let cap ← getItem venue "capacity"
    let bs ← getItem venue "booking_status"
    pure [ .markdown ("\n**🏢 Name:** " ++ pyStrOf name ++
             "  \n**📍 Address:** " ++ pyStrOf addr ++
             "  \n**👥 Capacity:** " ++ pyStrOf cap ++
             "  \n**📅 Booking Status:** " ++ pyStrOf bs ++ "  \n"),
           .downloadButton "⬇️ Download Venue JSON" (dumpsVal 0 venue) "venue_details.json" ]

/-- The venue-details section (src/main.py lines 197-216): existence probe,
`try/except Exception` around the body, warning when the file is absent. -/
def renderVenueSection (fs : String → Option String) : List Msg :=
  match fs "venue_details.json" with
  | some content =>
    Msg.subheader "📍 Venue Details" ::
      (match venueTryBody content with
       | .ok msgs => msgs
       | .error e => [.error ("Error loading venue details: " ++ e.str)])
  | none => [.warning "⚠️ Venue details file not found or not properly generated."]

/-- The `try:` body of the marketing-report section (src/main.py lines
221-236): the f-string accesses `summary` then `estimated_reach`, then the
joined campaign lines are appended, then the download is offered. -/
def marketingTryBody (content : String) : Except PyExc (List Msg) := do
  match parseJson content with
  | none => throw (.jsonDecodeError "Expecting value")
  | some report => do
    let summ ← getItem report "summary"
    let reach ← getItem report "estimated_reach"
    let camps ← getItem report "campaigns"
    let items ← pyIter camps
    pure [ .markdown ("\n📝 **Summary**: " ++ pyStrOf summ ++
             "  \n📊 **Estimated Reach**: " ++ pyStrOf reach ++
             "  \n📌 **Campaigns**:  \n" ++
             String.intercalate "\n" (items.map (fun c => "- " ++ pyStrOf c))),
           .downloadButton "⬇️ Download Marketing Report" (dumpsVal 0 report) "marketing_report.json" ]

/-- The marketing-report section (src/main.py lines 219-240). -/
def renderMarketingSection (fs : String → Option String) : List Msg :=
  match fs "marketing_report.json" with
  | some content =>
    Msg.subheader "📣 Marketing Report" ::
      (match marketingTryBody content with
       | .ok msgs => msgs
       | .error e => [.error ("Error loading marketing report: " ++ e.str)])
  | none => [.warning "⚠️ Marketing report file not found."]

/-! ## The engine result and the per-task summaries section -/

/-- One entry of `result["tasks_output"]`: either a plain string (skipped
by the loop) or a task record. The `agent` / `description` / `summary`
values are modelled as present-string or absent (`task.get` with a
default); non-string values under those keys are outside the modelled
domain. -/
inductive TaskEntry where
  | str (s : String)
  | task (agent : Option String) (description : Option String) (summary : Option String)
  deriving DecidableEq, Repr

/-- The engine's `kickoff` result as this script consumes it:
`tasksOutput = none` models a result without a `"tasks_output"` key. -/
structure CrewResult where
  tasksOutput : Option (List TaskEntry)
  deriving DecidableEq, Repr

/-- The loop body of the agent-task-summaries section for one entry
(src/main.py lines 245-256): strings are skipped; otherwise show the agent
(default `"Unknown"`), the description truncated to 120 characters, and
the summary or the placeholder. -/
def renderTaskEntry : TaskEntry → List Msg
  | .str _ => []
  | .task agent desc summ =>
    let summVal := summ.getD ""
    [ .markdown ("👤 **Agent:** " ++ agent.getD "Unknown"),
      .markdown ("📌 Task: " ++ (desc.getD "").take 120 ++ "..."),
      .markdown ("🧾 Summary: " ++ (if summVal = "" then "No summary available." else summVal)),
      .markdown "---" ]

/-- The agent-task-summaries section (src/main.py lines 243-256). -/
def renderTasksSection (result : CrewResult) : List Msg :=
  match result.tasksOutput with
  | some entries => Msg.subheader "🧠 Agent Task Summaries" :: (entries.map renderTaskEntry).flatten
  | none => []

/-! ## The form submission pipeline -/

/-- The raw widget values of one form submission. `tentative_date` is the
already-formatted `strftime("%Y-%m-%d")` string (the date widget always
yields a date, so date formatting cannot fail). -/
structure FormInput where
  openai_key : String
  serper_key : String
  event_topic : String
  event_description : String
  event_city : String
  tentative_date : String
  expected_participants_input : String
  budget_input : String
  venue_type : String
  deriving DecidableEq, Repr

/-- The `inputs=` dictionary handed to `Crew.kickoff` (src/main.py lines
139-147). -/
structure EventDetails where
  event_topic : String
  event_description : String
  event_city : String
  tentative_date : String
  expected_participants : Int
  budget : PyFloat
  venue_type : String
  deriving DecidableEq, Repr

/-- Everything one script run emits or mutates: Streamlit messages in
order, `os.environ` assignments in order, whether and with which inputs
`Crew.kickoff` was invoked, and an uncaught Python exception if the run
died. -/
structure RunOutcome where
  msgs : List Msg
  env : List (String × String)
  kickoffCalled : Bool
  kickoffInput : Option EventDetails
  exc : Option PyExc
  deriving DecidableEq, Repr

/-- Result of the in-form validation block (src/main.py lines 84-110).
`none` for a numeric slot means the Python variable was left unbound
(looking it up later raises `NameError`); `some none` means it was bound
to Python `None` (comparing it with `0` later raises `TypeError`). -/
structure FormBlockOut where
  msgs : List Msg
  errors : Bool
  expected_participants : Option (Option Int)
  budget : Option (Option PyFloat)
  deriving DecidableEq, Repr

/-- The participants arm of the in-form validation block (src/main.py
lines 88-94): blank binds `None` silently, an `isdigit` string binds its
`int` value, anything else shows the inline error and leaves the variable
unbound. Returns (messages, error flag, variable slot). -/
def participantsCheck (p : String) : List Msg × Bool × Option (Option Int) :=
  if pyStrip p = "" then ([], false, some none)
  else if pyIsdigit p then ([], false, some (some (digitsVal p)))
  else ([.error "❌ Expected Participants must be a whole number."], true, none)

/-- The budget arm of the in-form validation block (src/main.py lines
96-104): blank binds `None` silently, a `float(...)`-parsable string binds
its value, anything else shows the inline error and leaves the variable
unbound. -/
def budgetCheck (b : String) : List Msg × Bool × Option (Option PyFloat) :=
  if pyStrip b = "" then ([], false, some none)
  else
    match pyFloatParse b with
    | some f => ([], false, some (some f))
    | none => ([.error "❌ Budget must be a valid number (e.g., 1000 or 1000.50)."], true, none)

/-- The in-form validation block (src/main.py lines 84-110): participants
must satisfy `str.isdigit` or be blank (blank binds `None` and raises no
error); the budget must satisfy `float(...)` or be blank; on no error a
success message is shown. -/
def formBlock (inp : FormInput) : FormBlockOut :=
  let (pMsgs, pErr, participants) := participantsCheck inp.expected_participants_input
  let (bMsgs, bErr, budget) := budgetCheck inp.budget_input
  let errors := pErr || bErr
  let successMsgs : List Msg :=
    if errors then []
    else [.success "✅ All inputs are valid! Proceeding with event planning..."]
  { msgs := pMsgs ++ bMsgs ++ successMsgs
    errors := errors
    expected_participants := participants
    budget := budget }

/-- The Python comparison `x <= 0` for a possibly-unbound, possibly-`None`
numeric variable: `NameError` when unbound, `TypeError` against `None`,
the value comparison otherwise. -/
def cmpLe0 (varName : String) (slot : Option (Option Bool)) : Except PyExc Bool :=
  match slot with
  | none => .error (.nameError ("name '" ++ varName ++ "' is not defined"))
  | some none =>
    .error (.typeError "'<=' not supported between instances of 'NoneType' and 'int'")
  | some (some b) => .ok b

/-- The post-form block (src/main.py lines 114-256) given the state `b1`
the in-form block left behind: the `all(...)` field check, the two
numeric guards (which can raise on unbound/`None` variables), then the
environment assignments, the `Crew.kickoff` call and the rendering.
`kick` is the external engine's behaviour at `Crew.kickoff` and `fs` the
filesystem contents after it returns; both are consulted only if the
guarded `else:` branch is reached. -/
def postFormBlock (inp : FormInput) (b1 : FormBlockOut)
    (kick : Except PyExc CrewResult) (fs : String → Option String) : RunOutcome :=
  let allFieldsOk :=
    pyStrip inp.openai_key ≠ "" ∧ pyStrip inp.serper_key ≠ "" ∧
    pyStrip inp.event_topic ≠ "" ∧ pyStrip inp.event_description ≠ "" ∧
    pyStrip inp.event_city ≠ "" ∧ pyStrip inp.venue_type ≠ ""
  if ¬allFieldsOk then
    { msgs := b1.msgs ++ [.error "🚨 Please fill in all fields and provide both API keys."]
      env := [], kickoffCalled := false, kickoffInput := none, exc := none }
  else
    match cmpLe0 "expected_participants"
        (b1.expected_participants.map (·.map (· ≤ 0))) with
    | .error e =>
      { msgs := b1.msgs, env := [], kickoffCalled := false, kickoffInput := none,
        exc := some e }
    | .ok true =>
      { msgs := b1.msgs ++ [.error "🚨 Expected participants must be greater than 0."]
        env := [], kickoffCalled := false, kickoffInput := none, exc := none }
    | .ok false =>
      match cmpLe0 "budget" (b1.budget.map (·.map PyFloat.le0)) with
      | .error e =>
        { msgs := b1.msgs, env := [], kickoffCalled := false, kickoffInput := none,
          exc := some e }
      | .ok true =>
        { msgs := b1.msgs ++ [.error "🚨 Budget must be greater than 0."]
          env := [], kickoffCalled := false, kickoffInput := none, exc := none }
      | .ok false =>
        let envSet := [("OPENAI_API_KEY", inp.openai_key),
                       ("OPENAI_MODEL_NAME", "gpt-3.5-turbo"),
                       ("SERPER_API_KEY", inp.serper_key)]
        let details : EventDetails :=
          { event_topic := inp.event_topic
            event_description := inp.event_description
            event_city := inp.event_city
            tentative_date := inp.tentative_date
            expected_participants :=
              (b1.expected_participants.getD none).getD 0
            budget := (b1.budget.getD none).getD (.finite 0 0)
            venue_type := inp.venue_type }
        let preMsgs := b1.msgs ++ [Msg.info "⏳ Running AI Agents..."]
        match kick with
        | .error e =>
          { msgs := preMsgs, env := envSet, kickoffCalled := true,
            kickoffInput := some details, exc := some e }
        | .ok result =>
          { msgs := preMsgs ++
              [.success "🎉 Event Planning Completed",
               .markdown "### ✅ AI Planning Summary"] ++
              renderVenueSection fs ++ renderMarketingSection fs ++
              renderTasksSection result
            env := envSet, kickoffCalled := true, kickoffInput := some details,
            exc := none }

/-- One whole script run after the submit button fires (src/main.py lines
84-256): the in-form validation block followed by the post-form block. -/
def runScript (inp : FormInput) (kick : Except PyExc CrewResult)
    (fs : String → Option String) : RunOutcome :=
  postFormBlock inp (formBlock inp) kick fs

/-! ## Concrete fixtures shared by the verification theorems -/

/-- A fully valid form submission. -/
def sampleInput : FormInput :=
  { openai_key := "sk-test", serper_key := "sp-test", event_topic := "Tech Summit",
    event_description := "A one-day developer summit", event_city := "Lahore",
    tentative_date := "2026-10-12", expected_participants_input := "100",
    budget_input := "5000", venue_type := "Hotel" }

/-- A filesystem with no artifact files. -/
def noFile : String → Option String := fun _ => none

/-- A filesystem holding exactly one file. -/
def fileWith (name content : String) : String → Option String :=
  fun f => if f = name then some content else none

/-- The parsed venue artifact of the specification's example. -/
def grandHallVenue : JVal :=
  .jobj [("name", .jstr "Grand Hall"), ("address", .jstr "123 Main St"),
         ("capacity", .jint 200), ("booking_status", .jstr "Confirmed")]

/-- The example artifact serialised the way the download button re-emits
it (`json.dumps(..., indent=2)`). -/
def prettyVenueFile : String :=
  "\x7b\n  \"name\": \"Grand Hall\",\n  \"address\": \"123 Main St\",\n  \"capacity\": 200,\n  \"booking_status\": \"Confirmed\"\n\x7d"

/-- The same artifact serialised compactly (as `json.dump` or another
writer may well produce it): identical JSON data, different bytes. -/
def compactVenueFile : String :=
  "\x7b\"name\": \"Grand Hall\", \"address\": \"123 Main St\", \"capacity\": 200, \"booking_status\": \"Confirmed\"\x7d"

/-- A venue artifact missing the `capacity` key. -/
def noCapacityVenueFile : String :=
  "\x7b\"name\": \"Grand Hall\", \"address\": \"123 Main St\", \"booking_status\": \"Confirmed\"\x7d"

/-! ## Helper lemmas -/

/-- A digit-only string has no surrounding whitespace to strip. -/
theorem pyStrip_eq_self_of_isdigit (s : String) (h : pyIsdigit s = true) :
    pyStrip s = s := by
  unfold pyIsdigit at h
  simp only [Bool.and_eq_true, String.isEmpty_iff, Bool.not_eq_true', List.all_eq_true] at h
  obtain ⟨hne, hall⟩ := h
  have hd : ∀ c ∈ s.toList, isPySpace c = false := by
    intro c hc
    have := hall c hc
    simp only [isDigitChar, decide_eq_true_eq] at this
    simp only [isPySpace, decide_eq_false_iff_not]
    omega
  have h1 : s.toList.dropWhile isPySpace = s.toList := by
    cases hl : s.toList with
    | nil => simp
    | cons a l =>
      rw [List.dropWhile_cons, hd a (by rw [hl]; exact List.mem_cons_self a l)]
      simp
  have h2 : s.toList.reverse.dropWhile isPySpace = s.toList.reverse := by
    cases hl : s.toList.reverse with
    | nil => simp
    | cons a l =>
      have ha : a ∈ s.toList := by
        have : a ∈ s.toList.reverse := by rw [hl]; exact List.mem_cons_self a l
        simpa using this
      rw [List.dropWhile_cons, hd a ha]
      simp
  unfold pyStrip
  rw [h1, h2, List.reverse_reverse]
  rfl

/-- A digit-only string does not strip to the empty string. -/
theorem pyStrip_ne_empty_of_isdigit (s : String) (h : pyIsdigit s = true) :
    pyStrip s ≠ "" := by
  rw [pyStrip_eq_self_of_isdigit s h]
  unfold pyIsdigit at h
  simp only [Bool.and_eq_true, Bool.not_eq_true'] at h
  intro hs
  rw [hs] at h
  exact absurd h (by decide)

/-- A `float(...)`-parsable string does not strip to the empty string. -/
theorem pyStrip_ne_empty_of_floatParse (s : String) (f : PyFloat)
    (h : pyFloatParse s = some f) : pyStrip s ≠ "" := by
  intro hs
  rw [pyFloatParse, hs] at h
  simp [takeDigitsU, takeDigitsU.go] at h

/-- The participants arm on an `isdigit` input: no message, no error, the
`int` value bound. -/
theorem participantsCheck_isdigit (p : String) (h : pyIsdigit p = true) :
    participantsCheck p = ([], false, some (some (digitsVal p))) := by
  unfold participantsCheck
  rw [if_neg (pyStrip_ne_empty_of_isdigit p h), if_pos h]

/-- The participants arm on a non-blank non-`isdigit` input: inline error,
error flag set, variable left unbound. -/
theorem participantsCheck_fail (p : String) (h1 : pyStrip p ≠ "")
    (h2 : pyIsdigit p = false) :
    participantsCheck p =
      ([.error "❌ Expected Participants must be a whole number."], true, none) := by
  unfold participantsCheck
  rw [if_neg h1, h2]
  simp

/-- The budget arm on a `float(...)`-parsable input: no message, no error,
the value bound. -/
theorem budgetCheck_parse (b : String) (f : PyFloat) (h : pyFloatParse b = some f) :
    budgetCheck b = ([], false, some (some f)) := by
  unfold budgetCheck
  rw [if_neg (pyStrip_ne_empty_of_floatParse b f h), h]

/-- The budget arm on a non-blank unparsable input: inline error, error
flag set, variable left unbound. -/
theorem budgetCheck_fail (b : String) (h1 : pyStrip b ≠ "")
    (h2 : pyFloatParse b = none) :
    budgetCheck b =
      ([.error "❌ Budget must be a valid number (e.g., 1000 or 1000.50)."], true, none) := by
  unfold budgetCheck
  rw [if_neg h1, h2]

/-- `formBlock` in terms of the two arms. -/
theorem formBlock_of_checks (inp : FormInput)
    (pm : List Msg) (pe : Bool) (ps : Option (Option Int))
    (bm : List Msg) (be : Bool) (bs : Option (Option PyFloat))
    (hP : participantsCheck inp.expected_participants_input = (pm, pe, ps))
    (hB : budgetCheck inp.budget_input = (bm, be, bs)) :
    formBlock inp =
      { msgs := pm ++ bm ++
          (if pe || be then []
           else [.success "✅ All inputs are valid! Proceeding with event planning..."])
        errors := pe || be
        expected_participants := ps
        budget := bs } := by
  unfold formBlock
  rw [hP, hB]

/-- Every path of the post-form block only appends to the messages the
in-form block already emitted. -/
theorem postFormBlock_msgs_extend (inp : FormInput) (b1 : FormBlockOut)
    (kick : Except PyExc CrewResult) (fs : String → Option String) :
    ∃ rest, (postFormBlock inp b1 kick fs).msgs = b1.msgs ++ rest := by
  simp only [postFormBlock]
  split
  · exact ⟨_, rfl⟩
  · split
    · exact ⟨[], (List.append_nil _).symm⟩
    · exact ⟨_, rfl⟩
    · split
      · exact ⟨[], (List.append_nil _).symm⟩
      · exact ⟨_, rfl⟩
      · split
        · exact ⟨_, rfl⟩
        · rename_i res
          exact ⟨[Msg.info "⏳ Running AI Agents...", Msg.success "🎉 Event Planning Completed",
                  Msg.markdown "### ✅ AI Planning Summary"] ++ renderVenueSection fs ++
                 renderMarketingSection fs ++ renderTasksSection res, by simp⟩

/-- When the bound participants value is `≤ 0`, the post-form block never
reaches `Crew.kickoff` and ends with one of its two guard errors. -/
theorem postFormBlock_participants_le0_rejected (inp : FormInput) (b1 : FormBlockOut)
    (kick : Except PyExc CrewResult) (fs : String → Option String) (n : Int)
    (hp : b1.expected_participants = some (some n)) (hn : n ≤ 0) :
    (postFormBlock inp b1 kick fs).kickoffCalled = false ∧
    ((postFormBlock inp b1 kick fs).msgs =
        b1.msgs ++ [.error "🚨 Please fill in all fields and provide both API keys."] ∨
     (postFormBlock inp b1 kick fs).msgs =
        b1.msgs ++ [.error "🚨 Expected participants must be greater than 0."]) := by
  have hd : decide (n ≤ 0) = true := decide_eq_true hn
  simp only [postFormBlock, hp, Option.map_some', cmpLe0, hd]
  split
  · exact ⟨rfl, Or.inl rfl⟩
  · exact ⟨rfl, Or.inr rfl⟩

/-- When the engine raises during `Crew.kickoff`, the exception propagates
into the run outcome and no message beyond the pre-kickoff ones is
emitted: no rendering happens. -/
theorem postFormBlock_kick_error (inp : FormInput) (b1 : FormBlockOut)
    (fs : String → Option String) (e : PyExc)
    (h : (postFormBlock inp b1 (.error e) fs).kickoffCalled = true) :
    (postFormBlock inp b1 (.error e) fs).exc = some e ∧
    (postFormBlock inp b1 (.error e) fs).msgs =
      b1.msgs ++ [.info "⏳ Running AI Agents..."] := by
  simp only [postFormBlock] at h
  split at h
  · simp at h
  · rename_i hA
    split at h
    · simp at h
    · simp at h
    · rename_i heqP
      split at h
      · simp at h
      · simp at h
      · rename_i heqB
        simp only [postFormBlock]
        rw [if_neg hA, heqP, heqB]
        exact ⟨rfl, rfl⟩

/-- When `Crew.kickoff` returns normally, the run ends without exception
and the messages after the pre-kickoff ones are exactly the three
rendering sections in order. -/
theorem postFormBlock_render (inp : FormInput) (b1 : FormBlockOut)
    (res : CrewResult) (fs : String → Option String)
    (h : (postFormBlock inp b1 (.ok res) fs).kickoffCalled = true) :
    (postFormBlock inp b1 (.ok res) fs).exc = none ∧
    (postFormBlock inp b1 (.ok res) fs).msgs =
      b1.msgs ++ [.info "⏳ Running AI Agents...", .success "🎉 Event Planning Completed",
                  .markdown "### ✅ AI Planning Summary"] ++
      renderVenueSection fs ++ renderMarketingSection fs ++ renderTasksSection res := by
  simp only [postFormBlock] at h
  split at h
  · simp at h
  · rename_i hA
    split at h
    · simp at h
    · simp at h
    · rename_i heqP
      split at h
      · simp at h
      · simp at h
      · rename_i heqB
        simp only [postFormBlock]
        rw [if_neg hA, heqP, heqB]
        exact ⟨rfl, by simp⟩

/-- The three possible outcomes of the participants arm, with the branch
conditions. -/
theorem participantsCheck_cases (p : String) :
    (pyStrip p = "" ∧ participantsCheck p = ([], false, some none)) ∨
    (pyIsdigit p = true ∧ participantsCheck p = ([], false, some (some (digitsVal p)))) ∨
    (pyIsdigit p = false ∧ participantsCheck p =
      ([.error "❌ Expected Participants must be a whole number."], true, none)) := by
  unfold participantsCheck
  split
  · rename_i h
    exact Or.inl ⟨h, rfl⟩
  · split
    · rename_i h
      exact Or.inr (Or.inl ⟨h, rfl⟩)
    · rename_i h
      exact Or.inr (Or.inr ⟨by simpa using h, rfl⟩)

/-- When every guard value is good, the post-form block reaches
`Crew.kickoff` whatever the engine then does. -/
theorem postFormBlock_kickoff_reached (inp : FormInput) (b1 : FormBlockOut)
    (kick : Except PyExc CrewResult) (fs : String → Option String) (n : Int) (f : PyFloat)
    (hA : pyStrip inp.openai_key ≠ "" ∧ pyStrip inp.serper_key ≠ "" ∧
          pyStrip inp.event_topic ≠ "" ∧ pyStrip inp.event_description ≠ "" ∧
          pyStrip inp.event_city ≠ "" ∧ pyStrip inp.venue_type ≠ "")
    (hp : b1.expected_participants = some (some n)) (hn : ¬n ≤ 0)
    (hb : b1.budget = some (some f)) (hf : f.le0 = false) :
    (postFormBlock inp b1 kick fs).kickoffCalled = true := by
  have hd : decide (n ≤ 0) = false := decide_eq_false hn
  simp only [postFormBlock, hp, hb, Option.map_some', cmpLe0, hd, hf]
  rw [if_neg (not_not_intro hA)]
  cases kick <;> rfl

/-- If the post-form block reaches `Crew.kickoff`, every guard passed:
the six text fields are non-blank, the participants variable holds a
bound `int` that is not `≤ 0`, and the budget variable holds a bound
float on which the comparison `<= 0` is false. -/
theorem postFormBlock_kickoffCalled_inv (inp : FormInput) (b1 : FormBlockOut)
    (kick : Except PyExc CrewResult) (fs : String → Option String)
    (h : (postFormBlock inp b1 kick fs).kickoffCalled = true) :
    (pyStrip inp.openai_key ≠ "" ∧ pyStrip inp.serper_key ≠ "" ∧
     pyStrip inp.event_topic ≠ "" ∧ pyStrip inp.event_description ≠ "" ∧
     pyStrip inp.event_city ≠ "" ∧ pyStrip inp.venue_type ≠ "") ∧
    ∃ n f, b1.expected_participants = some (some n) ∧ ¬(n ≤ 0) ∧
      b1.budget = some (some f) ∧ f.le0 = false := by
  simp only [postFormBlock] at h
  split at h
  · simp at h
  · rename_i hA
    rw [not_not] at hA
    split at h
    · simp at h
    · simp at h
    · rename_i heqP
      split at h
      · simp at h
      · simp at h
      · rename_i heqB
        cases hp : b1.expected_participants with
        | none => rw [hp] at heqP; simp [cmpLe0] at heqP
        | some po =>
          cases po with
          | none => rw [hp] at heqP; simp [cmpLe0] at heqP
          | some n =>
            rw [hp] at heqP
            simp only [Option.map_some', cmpLe0, Except.ok.injEq] at heqP
            cases hb : b1.budget with
            | none => rw [hb] at heqB; simp [cmpLe0] at heqB
            | some bo =>
              cases bo with
              | none => rw [hb] at heqB; simp [cmpLe0] at heqB
              | some f =>
                rw [hb] at heqB
                simp only [Option.map_some', cmpLe0, Except.ok.injEq] at heqB
                refine ⟨hA, n, f, rfl, ?_, rfl, heqB⟩
                intro hc
                rw [decide_eq_true hc] at heqP
                exact absurd heqP (by decide)

/-- If the post-form block hands some `EventRequest` map to
`Crew.kickoff`, that map satisfies the data-model invariant (and records
the submitted fields unchanged). -/
theorem postFormBlock_kickoffInput_inv (inp : FormInput) (b1 : FormBlockOut)
    (kick : Except PyExc CrewResult) (fs : String → Option String) (d : EventDetails)
    (h : (postFormBlock inp b1 kick fs).kickoffInput = some d) :
    pyStrip inp.event_topic ≠ "" ∧ pyStrip inp.event_description ≠ "" ∧
    pyStrip inp.event_city ≠ "" ∧ pyStrip inp.venue_type ≠ "" ∧
    (∃ n : Int, b1.expected_participants = some (some n) ∧ 0 < n ∧ d.expected_participants = n) ∧
    (∃ f : PyFloat, b1.budget = some (some f) ∧ f.le0 = false ∧ d.budget = f) ∧
    d.event_topic = inp.event_topic ∧ d.event_description = inp.event_description ∧
    d.event_city = inp.event_city ∧ d.venue_type = inp.venue_type := by
  simp only [postFormBlock] at h
  split at h
  · simp at h
  · rename_i hA
    rw [not_not] at hA
    split at h
    · simp at h
    · simp at h
    · rename_i heqP
      split at h
      · simp at h
      · simp at h
      · rename_i heqB
        cases hp : b1.expected_participants with
        | none => rw [hp] at heqP; simp [cmpLe0] at heqP
        | some po =>
          cases po with
          | none => rw [hp] at heqP; simp [cmpLe0] at heqP
          | some n =>
            rw [hp] at heqP
            simp only [Option.map_some', cmpLe0, Except.ok.injEq] at heqP
            cases hb : b1.budget with
            | none => rw [hb] at heqB; simp [cmpLe0] at heqB
            | some bo =>
              cases bo with
              | none => rw [hb] at heqB; simp [cmpLe0] at heqB
              | some f =>
                rw [hb] at heqB
                simp only [Option.map_some', cmpLe0, Except.ok.injEq] at heqB
                have hn : 0 < n := by
                  by_contra hc
                  push_neg at hc
                  rw [decide_eq_true hc] at heqP
                  exact absurd heqP (by decide)
                split at h <;>
                · simp only [Option.some.injEq] at h
                  subst h
                  refine ⟨hA.2.2.1, hA.2.2.2.1, hA.2.2.2.2.1, hA.2.2.2.2.2,
                    ⟨n, rfl, hn, ?_⟩, ⟨f, rfl, heqB, ?_⟩, rfl, rfl, rfl, rfl⟩
                  · rw [hp]; rfl
                  · rw [hb]; rfl

/-- Unfolding of the venue section when the artifact file is present. -/
theorem renderVenueSection_some (fs : String → Option String) (c : String)
    (h : fs "venue_details.json" = some c) :
    renderVenueSection fs = Msg.subheader "📍 Venue Details" ::
      (match venueTryBody c with
       | .ok msgs => msgs
       | .error e => [.error ("Error loading venue details: " ++ e.str)]) := by
  unfold renderVenueSection
  rw [h]

/-- Unfolding of the venue section when the artifact file is absent. -/
theorem renderVenueSection_none (fs : String → Option String)
    (h : fs "venue_details.json" = none) :
    renderVenueSection fs =
      [.warning "⚠️ Venue details file not found or not properly generated."] := by
  unfold renderVenueSection
  rw [h]

/-- Unfolding of the marketing section when the artifact file is absent. -/
theorem renderMarketingSection_none (fs : String → Option String)
    (h : fs "marketing_report.json" = none) :
    renderMarketingSection fs = [.warning "⚠️ Marketing report file not found."] := by
  unfold renderMarketingSection
  rw [h]

/-- The digit scanner consumes a pure digit run into its accumulated
value. -/
theorem intDigitsU_digits (cs : List Char) (h : ∀ c ∈ cs, isDigitChar c = true) :
    ∀ acc : Nat, intDigitsU cs (some acc) false =
      some (cs.foldl (fun a c => a * 10 + (c.toNat - 48)) acc) := by
  induction cs with
  | nil => intro acc; rfl
  | cons c cs ih =>
    intro acc
    have hc := h c (List.mem_cons_self c cs)
    simp only [intDigitsU, hc, if_true, Option.getD_some, List.foldl_cons]
    exact ih (fun x hx => h x (List.mem_cons_of_mem c hx)) _

/-- The `Nat`-accumulated digit value coincides with the `Int`-accumulated
one on digit runs. -/
theorem intNat_foldl_digits (cs : List Char) (h : ∀ c ∈ cs, isDigitChar c = true) :
    ∀ acc : Nat,
      ((cs.foldl (fun a c => a * 10 + (c.toNat - 48)) acc : Nat) : Int) =
        cs.foldl (fun a c => a * 10 + ((c.toNat : Int) - 48)) (acc : Int) := by
  induction cs with
  | nil => intro acc; rfl
  | cons c cs ih =>
    intro acc
    have hc := h c (List.mem_cons_self c cs)
    have h48 : 48 ≤ c.toNat ∧ c.toNat ≤ 57 := by
      simpa [isDigitChar] using hc
    simp only [List.foldl_cons]
    rw [ih (fun x hx => h x (List.mem_cons_of_mem c hx))]
    congr 1
    omega

/-- On an `isdigit` string, Python `int(...)` returns exactly the value
the script binds (`digitsVal`): no sign, no whitespace, all digits. -/
theorem pyIntParse_of_isdigit (p : String) (h : pyIsdigit p = true) :
    pyIntParse p = some (digitsVal p) := by
  have hs := pyStrip_eq_self_of_isdigit p h
  have h' := h
  unfold pyIsdigit at h'
  simp only [Bool.and_eq_true, Bool.not_eq_true', List.all_eq_true] at h'
  obtain ⟨hne, hall⟩ := h'
  unfold pyIntParse
  rw [hs]
  cases hl : p.toList with
  | nil =>
    exfalso
    have : p = "" := by
      rw [← show String.mk p.toList = p from rfl, hl]
    rw [this] at hne
    exact absurd hne (by decide)
  | cons c cs =>
    have hc : isDigitChar c = true := hall c (by rw [hl]; exact List.mem_cons_self c cs)
    have hplus : ¬(c = '+') := by
      intro e
      subst e
      simp [isDigitChar] at hc
    have hminus : ¬(c = '-') := by
      intro e
      subst e
      simp [isDigitChar] at hc
    simp only [if_neg hplus, if_neg hminus]
    have hstep : intDigitsU (c :: cs) none false =
        intDigitsU cs (some (c.toNat - 48)) false := by
      simp [intDigitsU, hc]
    have hcs : ∀ x ∈ cs, isDigitChar x = true :=
      fun x hx => hall x (by rw [hl]; exact List.mem_cons_of_mem c hx)
    rw [hstep, intDigitsU_digits cs hcs]
    unfold digitsVal
    rw [hl]
    simp only [List.foldl_cons, Option.some.injEq]
    rw [intNat_foldl_digits cs hcs]
    have h48 : 48 ≤ c.toNat ∧ c.toNat ≤ 57 := by
      simpa [isDigitChar] using hc
    have : ((c.toNat - 48 : Nat) : Int) = (c.toNat : Int) - 48 := by omega
    rw [this]
    simp

/-- An `int(...)`-parsable string does not strip to the empty string. -/
theorem pyStrip_ne_empty_of_intParse (s : String) (v : Int)
    (h : pyIntParse s = some v) : pyStrip s ≠ "" := by
  intro hs
  rw [pyIntParse, hs] at h
  simp [intDigitsU] at h

/-- The `EventRequest` map the sample submission hands to `Crew.kickoff`. -/
def sampleDetails : EventDetails :=
  { event_topic := "Tech Summit", event_description := "A one-day developer summit",
    event_city := "Lahore", tentative_date := "2026-10-12",
    expected_participants := 100, budget := .finite 5000 0, venue_type := "Hotel" }

/-! ## The claims -/

/-- **C1.** The claim says every submission with an empty or non-numeric
required field is rejected with an inline error message and no other side
effect. The code violates this: submitting with the participants field
empty (and everything else valid) produces a spurious success message,
no inline participants error, and an uncaught `TypeError` from the
`expected_participants <= 0` guard comparing `None` with `int` — the
submission dies instead of being rejected. (No credential variable is set
and no orchestration call is made, so that part of the claim does hold;
the inline-error / no-side-effect part is what the code breaks, against
the evident intent of its own validation block.) -/
theorem c1_empty_participants_submission_crashes :
    runScript { sampleInput with expected_participants_input := "" } (.ok ⟨none⟩) noFile =
      { msgs := [.success "✅ All inputs are valid! Proceeding with event planning..."],
        env := [], kickoffCalled := false, kickoffInput := none,
        exc := some (.typeError "'<=' not supported between instances of 'NoneType' and 'int'") } := by
  rfl

/-- **C2** (counterexample). The claim asserts that every execution
reaching `Crew.kickoff` has a strictly positive budget. Submitting the
budget string `"nan"` refutes it: `float("nan")` parses, `nan <= 0` is
false, so the guard passes and `Crew.kickoff` is reached with a NaN
budget, which is not strictly positive. -/
theorem c2_nan_budget_reaches_kickoff :
    (runScript { sampleInput with budget_input := "nan" } (.ok ⟨none⟩) noFile).kickoffCalled
        = true ∧
    (runScript { sampleInput with budget_input := "nan" } (.ok ⟨none⟩) noFile).kickoffInput
        = some { sampleDetails with budget := .nan } ∧
    PyFloat.isPos .nan = false :=
  ⟨rfl, rfl, rfl⟩

/-- **C2** (amended). For every execution that reaches the orchestration
call, the submitted `EventRequest` map satisfies: all text fields are
non-empty after stripping, the participant count is an integer strictly
greater than 0, and the budget is a float on which the comparison
`<= 0` is false — that is, strictly positive or NaN. -/
theorem c2_kickoff_request_invariant (inp : FormInput)
    (kick : Except PyExc CrewResult) (fs : String → Option String) (d : EventDetails)
    (h : (runScript inp kick fs).kickoffInput = some d) :
    pyStrip d.event_topic ≠ "" ∧ pyStrip d.event_description ≠ "" ∧
    pyStrip d.event_city ≠ "" ∧ pyStrip d.venue_type ≠ "" ∧
    0 < d.expected_participants ∧ d.budget.le0 = false := by
  obtain ⟨h1, h2, h3, h4, ⟨n, _, hn, hdn⟩, ⟨f, _, hf, hdf⟩, e1, e2, e3, e4⟩ :=
    postFormBlock_kickoffInput_inv inp (formBlock inp) kick fs d h
  rw [e1, e2, e3, e4, hdn, hdf]
  exact ⟨h1, h2, h3, h4, hn, hf⟩

/-- **C2** witness: the invariant instantiated at the sample submission. -/
theorem c2_kickoff_request_invariant_witness :
    pyStrip sampleDetails.event_topic ≠ "" ∧ pyStrip sampleDetails.event_description ≠ "" ∧
    pyStrip sampleDetails.event_city ≠ "" ∧ pyStrip sampleDetails.venue_type ≠ "" ∧
    0 < sampleDetails.expected_participants ∧ sampleDetails.budget.le0 = false :=
  c2_kickoff_request_invariant sampleInput (.ok ⟨none⟩) noFile sampleDetails (by decide)

/-- **C3** (counterexample). The claim asserts the download reproduces the
artifact file byte-for-byte. A compact serialisation of the very artifact
the claim describes refutes it: all four values are displayed, but the
download content is the `json.dumps(..., indent=2)` re-serialisation,
which differs from the file's bytes. -/
theorem c3_download_not_byte_for_byte :
    renderVenueSection (fileWith "venue_details.json" compactVenueFile) =
      [.subheader "📍 Venue Details",
       .markdown "\n**🏢 Name:** Grand Hall  \n**📍 Address:** 123 Main St  \n**👥 Capacity:** 200  \n**📅 Booking Status:** Confirmed  \n",
       .downloadButton "⬇️ Download Venue JSON" prettyVenueFile "venue_details.json"] ∧
    prettyVenueFile ≠ compactVenueFile :=
  ⟨rfl, by decide⟩

/-- **C3** (amended). For every `venue_details.json` content that parses
to the claim's artifact (name "Grand Hall", address "123 Main St",
capacity 200, booking_status "Confirmed"), the renderer displays all four
values and offers a JSON download whose content is the indent-2
re-serialisation of the parsed artifact; that download equals the file
byte-for-byte exactly when the file is already in that serialisation. -/
theorem c3_renderer_displays_four_values (content : String)
    (h : parseJson content = some grandHallVenue) :
    renderVenueSection (fileWith "venue_details.json" content) =
      [.subheader "📍 Venue Details",
       .markdown "\n**🏢 Name:** Grand Hall  \n**📍 Address:** 123 Main St  \n**👥 Capacity:** 200  \n**📅 Booking Status:** Confirmed  \n",
       .downloadButton "⬇️ Download Venue JSON" (dumpsVal 0 grandHallVenue) "venue_details.json"] ∧
    (dumpsVal 0 grandHallVenue = content ↔ content = prettyVenueFile) := by
  constructor
  · have hb : venueTryBody content =
        .ok [.markdown "\n**🏢 Name:** Grand Hall  \n**📍 Address:** 123 Main St  \n**👥 Capacity:** 200  \n**📅 Booking Status:** Confirmed  \n",
             .downloadButton "⬇️ Download Venue JSON" (dumpsVal 0 grandHallVenue) "venue_details.json"] := by
      unfold venueTryBody
      rw [h]
      rfl
    rw [renderVenueSection_some (fileWith "venue_details.json" content) content rfl, hb]
  · rw [show dumpsVal 0 grandHallVenue = prettyVenueFile from rfl]
    exact eq_comm

/-- **C3** witness: the amended statement at the canonical serialisation,
where the download is byte-for-byte the file. -/
theorem c3_renderer_displays_four_values_witness :
    renderVenueSection (fileWith "venue_details.json" prettyVenueFile) =
      [.subheader "📍 Venue Details",
       .markdown "\n**🏢 Name:** Grand Hall  \n**📍 Address:** 123 Main St  \n**👥 Capacity:** 200  \n**📅 Booking Status:** Confirmed  \n",
       .downloadButton "⬇️ Download Venue JSON" (dumpsVal 0 grandHallVenue) "venue_details.json"] ∧
    (dumpsVal 0 grandHallVenue = prettyVenueFile ↔ prettyVenueFile = prettyVenueFile) :=
  c3_renderer_displays_four_values prettyVenueFile rfl

/-- **C6.** When `marketing_report.json` does not exist after the
orchestration call returns, the renderer shows the warning message, the
run raises no unhandled error (runs that reach rendering end with no
exception), and the venue rendering depends only on the venue file, so it
is unaffected by the marketing file's absence. -/
theorem c6_missing_marketing_report_warns (fs fs' : String → Option String)
    (hm : fs "marketing_report.json" = none)
    (hv : fs' "venue_details.json" = fs "venue_details.json") :
    renderMarketingSection fs = [.warning "⚠️ Marketing report file not found."] ∧
    renderVenueSection fs' = renderVenueSection fs ∧
    (∀ inp res, (runScript inp (.ok res) fs).kickoffCalled = true →
       (runScript inp (.ok res) fs).exc = none) := by
  refine ⟨renderMarketingSection_none fs hm, ?_, ?_⟩
  · unfold renderVenueSection
    rw [hv]
  · intro inp res h
    unfold runScript at h ⊢
    exact (postFormBlock_render inp (formBlock inp) res fs h).1

/-- **C6** witness: instantiated at an artifact-free filesystem. -/
theorem c6_missing_marketing_report_warns_witness :
    renderMarketingSection noFile = [.warning "⚠️ Marketing report file not found."] ∧
    renderVenueSection noFile = renderVenueSection noFile ∧
    (∀ inp res, (runScript inp (.ok res) noFile).kickoffCalled = true →
       (runScript inp (.ok res) noFile).exc = none) :=
  c6_missing_marketing_report_warns noFile noFile rfl rfl

/-- **C7.** When `venue_details.json` exists but its object lacks the
`capacity` key (while `name` and `address`, accessed before it, are
present), the renderer catches the `KeyError` and displays an error
message instead of terminating, and runs that reach rendering still
process the marketing artifact: the marketing section appears in the
output and the run ends without exception. -/
theorem c7_missing_capacity_key_caught (fs : String → Option String) (c : String)
    (kvs : List (String × JVal)) (nv av : JVal)
    (hf : fs "venue_details.json" = some c)
    (hp : parseJson c = some (.jobj kvs))
    (hn : lookupKV kvs "name" = some nv)
    (ha : lookupKV kvs "address" = some av)
    (hc : lookupKV kvs "capacity" = none) :
    renderVenueSection fs =
      [.subheader "📍 Venue Details",
       .error "Error loading venue details: 'capacity'"] ∧
    (∀ inp res, (runScript inp (.ok res) fs).kickoffCalled = true →
       (runScript inp (.ok res) fs).exc = none ∧
       ∃ pre post, (runScript inp (.ok res) fs).msgs =
         pre ++ renderMarketingSection fs ++ post) := by
  have hbody : venueTryBody c = .error (.keyError "capacity") := by
    unfold venueTryBody
    rw [hp]
    simp only [getItem, hn, ha, hc]
    rfl
  constructor
  · rw [renderVenueSection_some fs c hf, hbody]
    rfl
  · intro inp res h
    unfold runScript at h ⊢
    obtain ⟨hexc, hmsgs⟩ := postFormBlock_render inp (formBlock inp) res fs h
    refine ⟨hexc, ⟨(formBlock inp).msgs ++
      [Msg.info "⏳ Running AI Agents...", Msg.success "🎉 Event Planning Completed",
       Msg.markdown "### ✅ AI Planning Summary"] ++ renderVenueSection fs,
      renderTasksSection res, ?_⟩⟩
    rw [hmsgs]

/-- **C7** witness: a concrete capacity-less artifact with no marketing
file. -/
theorem c7_missing_capacity_key_caught_witness :
    renderVenueSection (fileWith "venue_details.json" noCapacityVenueFile) =
      [.subheader "📍 Venue Details",
       .error "Error loading venue details: 'capacity'"] ∧
    (∀ inp res,
       (runScript inp (.ok res) (fileWith "venue_details.json" noCapacityVenueFile)).kickoffCalled
           = true →
       (runScript inp (.ok res) (fileWith "venue_details.json" noCapacityVenueFile)).exc
           = none ∧
       ∃ pre post,
         (runScript inp (.ok res) (fileWith "venue_details.json" noCapacityVenueFile)).msgs =
           pre ++
             renderMarketingSection (fileWith "venue_details.json" noCapacityVenueFile) ++
             post) :=
  c7_missing_capacity_key_caught (fileWith "venue_details.json" noCapacityVenueFile)
    noCapacityVenueFile
    [("name", .jstr "Grand Hall"), ("address", .jstr "123 Main St"),
     ("booking_status", .jstr "Confirmed")]
    (.jstr "Grand Hall") (.jstr "123 Main St") rfl rfl rfl rfl rfl

/-- **C8.** An exception raised by the orchestration engine inside
`Crew.kickoff` propagates uncaught out of the script: the run outcome
carries exactly that exception, and the messages stop at the pre-kickoff
"Running AI Agents" info — no success banner and no rendering occur. -/
theorem c8_engine_exception_propagates (inp : FormInput)
    (fs : String → Option String) (e : PyExc)
    (h : (runScript inp (.error e) fs).kickoffCalled = true) :
    (runScript inp (.error e) fs).exc = some e ∧
    (runScript inp (.error e) fs).msgs =
      (formBlock inp).msgs ++ [.info "⏳ Running AI Agents..."] := by
  unfold runScript at h ⊢
  exact postFormBlock_kick_error inp (formBlock inp) fs e h

/-- **C8** witness: a concrete engine failure on the sample submission. -/
theorem c8_engine_exception_propagates_witness :
    (runScript sampleInput (.error (.valueError "connection reset")) noFile).exc =
      some (.valueError "connection reset") ∧
    (runScript sampleInput (.error (.valueError "connection reset")) noFile).msgs =
      (formBlock sampleInput).msgs ++ [.info "⏳ Running AI Agents..."] :=
  c8_engine_exception_propagates sampleInput noFile (.valueError "connection reset")
    (by decide)

/-- **C9.** The per-task summaries section renders, for every non-string
entry of the engine result's `tasks_output` list, the responsible agent
(`"Unknown"` when absent), the first 120 characters of the description
followed by `"..."`, and the summary text with the placeholder
`"No summary available."` when the summary is absent or empty; plain
string entries are skipped. -/
theorem c9_task_summaries_rendering :
    (∀ (res : CrewResult) (entries : List TaskEntry), res.tasksOutput = some entries →
       renderTasksSection res =
         Msg.subheader "🧠 Agent Task Summaries" :: (entries.map renderTaskEntry).flatten) ∧
    (∀ s, renderTaskEntry (.str s) = []) ∧
    (∀ a d sm, renderTaskEntry (.task a d sm) =
       [.markdown ("👤 **Agent:** " ++ a.getD "Unknown"),
        .markdown ("📌 Task: " ++ (d.getD "").take 120 ++ "..."),
        .markdown ("🧾 Summary: " ++
          (if sm.getD "" = "" then "No summary available." else sm.getD "")),
        .markdown "---"]) := by
  refine ⟨?_, fun s => rfl, fun a d sm => rfl⟩
  intro res entries h
  unfold renderTasksSection
  rw [h]

/-- **C9** witness: a mixed `tasks_output` list rendered entry by entry. -/
theorem c9_task_summaries_rendering_witness :
    renderTasksSection
        ⟨some [.str "raw", .task (some "Venue Coordinator") (some "Find a venue") none]⟩ =
      Msg.subheader "🧠 Agent Task Summaries" ::
        (([.str "raw",
           .task (some "Venue Coordinator") (some "Find a venue") none] :
            List TaskEntry).map renderTaskEntry).flatten :=
  c9_task_summaries_rendering.1
    ⟨some [.str "raw", .task (some "Venue Coordinator") (some "Find a venue") none]⟩
    [.str "raw", .task (some "Venue Coordinator") (some "Find a venue") none] rfl

/-- **C4.** Participants bounds: (a) every participants input that
Python `int(...)` would parse to a value `≤ 0` blocks the submission —
`Crew.kickoff` is never reached (digit strings like `"0"` fail the
`> 0` guard; signed forms like `"-3"` already fail the `isdigit` check);
(b) every `isdigit` participants input whose value is `≤ 0` is rejected
with a guard error message; (c) every `isdigit` participants input with
value `≥ 1`, submitted alongside otherwise valid fields, passes
validation (the in-form block emits only the success message) and does
not block the submission — `Crew.kickoff` is reached. -/
theorem c4_participants_guard :
    (∀ (inp : FormInput) (kick : Except PyExc CrewResult) (fs : String → Option String)
       (v : Int),
       pyIntParse inp.expected_participants_input = some v → v ≤ 0 →
       (runScript inp kick fs).kickoffCalled = false) ∧
    (∀ (inp : FormInput) (kick : Except PyExc CrewResult) (fs : String → Option String),
       pyIsdigit inp.expected_participants_input = true →
       digitsVal inp.expected_participants_input ≤ 0 →
       (runScript inp kick fs).kickoffCalled = false ∧
       ((runScript inp kick fs).msgs =
           (formBlock inp).msgs ++
             [.error "🚨 Please fill in all fields and provide both API keys."] ∨
        (runScript inp kick fs).msgs =
           (formBlock inp).msgs ++
             [.error "🚨 Expected participants must be greater than 0."])) ∧
    (∀ (inp : FormInput) (kick : Except PyExc CrewResult) (fs : String → Option String)
       (f : PyFloat),
       pyIsdigit inp.expected_participants_input = true →
       1 ≤ digitsVal inp.expected_participants_input →
       pyStrip inp.openai_key ≠ "" → pyStrip inp.serper_key ≠ "" →
       pyStrip inp.event_topic ≠ "" → pyStrip inp.event_description ≠ "" →
       pyStrip inp.event_city ≠ "" → pyStrip inp.venue_type ≠ "" →
       pyFloatParse inp.budget_input = some f → f.le0 = false →
       (formBlock inp).msgs =
         [.success "✅ All inputs are valid! Proceeding with event planning..."] ∧
       (runScript inp kick fs).kickoffCalled = true) := by
  refine ⟨?_, ?_, ?_⟩
  · intro inp kick fs v hpv hv
    by_cases hid : pyIsdigit inp.expected_participants_input = true
    · have hd : digitsVal inp.expected_participants_input = v := by
        rw [pyIntParse_of_isdigit _ hid] at hpv
        exact Option.some.inj hpv
      have hP := participantsCheck_isdigit _ hid
      rcases hB : budgetCheck inp.budget_input with ⟨bm, be, bs⟩
      have hslot : (formBlock inp).expected_participants =
          some (some (digitsVal inp.expected_participants_input)) := by
        rw [formBlock_of_checks inp _ _ _ _ _ _ hP hB]
      have hle : digitsVal inp.expected_participants_input ≤ 0 := by rw [hd]; exact hv
      unfold runScript
      exact (postFormBlock_participants_le0_rejected inp (formBlock inp) kick fs _
        hslot hle).1
    · have hs := pyStrip_ne_empty_of_intParse _ _ hpv
      have hP := participantsCheck_fail _ hs (by simpa using hid)
      rcases hB : budgetCheck inp.budget_input with ⟨bm, be, bs⟩
      have hslot : (formBlock inp).expected_participants = none := by
        rw [formBlock_of_checks inp _ _ _ _ _ _ hP hB]
      by_contra hk
      rw [Bool.not_eq_false] at hk
      unfold runScript at hk
      obtain ⟨_, n', f', hp', _, _, _⟩ :=
        postFormBlock_kickoffCalled_inv inp (formBlock inp) kick fs hk
      rw [hslot] at hp'
      exact absurd hp' (by simp)
  · intro inp kick fs hid hle
    have hP := participantsCheck_isdigit _ hid
    rcases hB : budgetCheck inp.budget_input with ⟨bm, be, bs⟩
    have hslot : (formBlock inp).expected_participants =
        some (some (digitsVal inp.expected_participants_input)) := by
      rw [formBlock_of_checks inp _ _ _ _ _ _ hP hB]
    unfold runScript
    exact postFormBlock_participants_le0_rejected inp (formBlock inp) kick fs _ hslot hle
  · intro inp kick fs f hid h1 k1 k2 k3 k4 k5 k6 hbp hf
    have hP := participantsCheck_isdigit _ hid
    have hB := budgetCheck_parse _ f hbp
    have hfb := formBlock_of_checks inp _ _ _ _ _ _ hP hB
    constructor
    · rw [hfb]
      rfl
    · unfold runScript
      refine postFormBlock_kickoff_reached inp (formBlock inp) kick fs
        (digitsVal inp.expected_participants_input) f ⟨k1, k2, k3, k4, k5, k6⟩ ?_
        (by omega) ?_ hf
      · rw [hfb]
      · rw [hfb]

/-- **C4** witness: rejection at participants "-3" and "0", acceptance at
the sample submission. -/
theorem c4_participants_guard_witness :
    (runScript { sampleInput with expected_participants_input := "-3" } (.ok ⟨none⟩)
        noFile).kickoffCalled = false ∧
    ((runScript { sampleInput with expected_participants_input := "0" } (.ok ⟨none⟩)
        noFile).kickoffCalled = false ∧
     ((runScript { sampleInput with expected_participants_input := "0" } (.ok ⟨none⟩)
         noFile).msgs =
        (formBlock { sampleInput with expected_participants_input := "0" }).msgs ++
          [.error "🚨 Please fill in all fields and provide both API keys."] ∨
      (runScript { sampleInput with expected_participants_input := "0" } (.ok ⟨none⟩)
         noFile).msgs =
        (formBlock { sampleInput with expected_participants_input := "0" }).msgs ++
          [.error "🚨 Expected participants must be greater than 0."])) ∧
    ((formBlock sampleInput).msgs =
       [.success "✅ All inputs are valid! Proceeding with event planning..."] ∧
     (runScript sampleInput (.ok ⟨none⟩) noFile).kickoffCalled = true) :=
  ⟨c4_participants_guard.1 { sampleInput with expected_participants_input := "-3" }
     (.ok ⟨none⟩) noFile (-3) (by decide) (by decide),
   c4_participants_guard.2.1 { sampleInput with expected_participants_input := "0" }
     (.ok ⟨none⟩) noFile (by decide) (by decide),
   c4_participants_guard.2.2 sampleInput (.ok ⟨none⟩) noFile (.finite 5000 0)
     (by decide) (by decide) (by decide) (by decide) (by decide) (by decide)
     (by decide) (by decide) (by decide) (by decide)⟩

/-- **C5.** Budget validation: (a) a budget input parsing to a finite
float `≤ 0` blocks the submission — `Crew.kickoff` is never reached;
(b) the decimal string `"1000.50"` parses to the value `1000.50`
(`100050 / 10^2`), and a submission carrying it binds that value with no
inline budget error; (c) the non-numeric string `"abc"` draws the
specific inline budget error message and the submission never reaches
`Crew.kickoff`. -/
theorem c5_budget_validation :
    (∀ (inp : FormInput) (kick : Except PyExc CrewResult) (fs : String → Option String)
       (n : Int) (s : Nat),
       pyFloatParse inp.budget_input = some (.finite n s) → n ≤ 0 →
       (runScript inp kick fs).kickoffCalled = false) ∧
    pyFloatParse "1000.50" = some (.finite 100050 2) ∧
    (∀ inp : FormInput, inp.budget_input = "1000.50" →
       (formBlock inp).budget = some (some (.finite 100050 2)) ∧
       Msg.error "❌ Budget must be a valid number (e.g., 1000 or 1000.50)." ∉
         (formBlock inp).msgs) ∧
    (∀ (inp : FormInput) (kick : Except PyExc CrewResult) (fs : String → Option String),
       inp.budget_input = "abc" →
       Msg.error "❌ Budget must be a valid number (e.g., 1000 or 1000.50)." ∈
         (runScript inp kick fs).msgs ∧
       (runScript inp kick fs).kickoffCalled = false) := by
  refine ⟨?_, by decide, ?_, ?_⟩
  · intro inp kick fs n s hbp hn
    by_contra hk
    rw [Bool.not_eq_false] at hk
    unfold runScript at hk
    obtain ⟨_, n', f', hp', hn', hb', hf'⟩ :=
      postFormBlock_kickoffCalled_inv inp (formBlock inp) kick fs hk
    have hB := budgetCheck_parse _ _ hbp
    rcases hPc : participantsCheck inp.expected_participants_input with ⟨pm, pe, ps⟩
    rw [formBlock_of_checks inp _ _ _ _ _ _ hPc hB] at hb'
    simp only [Option.some.injEq] at hb'
    rw [← hb'] at hf'
    simp only [PyFloat.le0, decide_eq_false_iff_not] at hf'
    omega
  · intro inp hb
    have hbp : pyFloatParse inp.budget_input = some (.finite 100050 2) := by
      rw [hb]; decide
    have hB := budgetCheck_parse _ _ hbp
    rcases participantsCheck_cases inp.expected_participants_input with
      ⟨_, hP⟩ | ⟨_, hP⟩ | ⟨_, hP⟩ <;>
      rw [formBlock_of_checks inp _ _ _ _ _ _ hP hB] <;>
      exact ⟨rfl, by simp⟩
  · intro inp kick fs hb
    have h1 : pyStrip inp.budget_input ≠ "" := by rw [hb]; decide
    have h2 : pyFloatParse inp.budget_input = none := by rw [hb]; decide
    have hB := budgetCheck_fail _ h1 h2
    rcases hPc : participantsCheck inp.expected_participants_input with ⟨pm, pe, ps⟩
    have hfb := formBlock_of_checks inp _ _ _ _ _ _ hPc hB
    constructor
    · obtain ⟨rest, hmsgs⟩ := postFormBlock_msgs_extend inp (formBlock inp) kick fs
      unfold runScript
      rw [hmsgs, hfb]
      simp
    · by_contra hk
      rw [Bool.not_eq_false] at hk
      unfold runScript at hk
      obtain ⟨_, n', f', hp', hn', hb', hf'⟩ :=
        postFormBlock_kickoffCalled_inv inp (formBlock inp) kick fs hk
      rw [hfb] at hb'
      simp at hb'

/-- **C5** witness: the three budget behaviours at concrete inputs. -/
theorem c5_budget_validation_witness :
    (runScript { sampleInput with budget_input := "-5" } (.ok ⟨none⟩) noFile).kickoffCalled
        = false ∧
    ((formBlock { sampleInput with budget_input := "1000.50" }).budget =
       some (some (.finite 100050 2)) ∧
     Msg.error "❌ Budget must be a valid number (e.g., 1000 or 1000.50)." ∉
       (formBlock { sampleInput with budget_input := "1000.50" }).msgs) ∧
    (Msg.error "❌ Budget must be a valid number (e.g., 1000 or 1000.50)." ∈
       (runScript { sampleInput with budget_input := "abc" } (.ok ⟨none⟩) noFile).msgs ∧
     (runScript { sampleInput with budget_input := "abc" } (.ok ⟨none⟩)
        noFile).kickoffCalled = false) :=
  ⟨c5_budget_validation.1 { sampleInput with budget_input := "-5" } (.ok ⟨none⟩) noFile
     (-5) 0 (by decide) (by decide),
   c5_budget_validation.2.2.1 { sampleInput with budget_input := "1000.50" } rfl,
   c5_budget_validation.2.2.2 { sampleInput with budget_input := "abc" } (.ok ⟨none⟩)
     noFile rfl⟩

/-- **C10.** The whole-number check is `str.isdigit`, so participants
inputs carrying a sign or surrounding whitespace — such as `"+10"` and
`" 10 "`, which Python `int(...)` would happily parse to `10 ≥ 1` — are
rejected with the whole-number error; a value is bound as the participant
count only for non-empty all-decimal-digit strings. -/
theorem c10_isdigit_rejects_sign_and_space :
    pyIsdigit "+10" = false ∧ pyIsdigit " 10 " = false ∧
    pyIntParse "+10" = some 10 ∧ pyIntParse " 10 " = some 10 ∧
    (∀ (inp : FormInput) (kick : Except PyExc CrewResult) (fs : String → Option String),
       pyStrip inp.expected_participants_input ≠ "" →
       pyIsdigit inp.expected_participants_input = false →
       Msg.error "❌ Expected Participants must be a whole number." ∈
         (runScript inp kick fs).msgs) ∧
    (∀ (inp : FormInput) (v : Int),
       (formBlock inp).expected_participants = some (some v) →
       pyIsdigit inp.expected_participants_input = true ∧
       v = digitsVal inp.expected_participants_input) := by
  refine ⟨by decide, by decide, by decide, by decide, ?_, ?_⟩
  · intro inp kick fs hs hd
    have hP := participantsCheck_fail _ hs hd
    rcases hB : budgetCheck inp.budget_input with ⟨bm, be, bs⟩
    have hfb := formBlock_of_checks inp _ _ _ _ _ _ hP hB
    obtain ⟨rest, hmsgs⟩ := postFormBlock_msgs_extend inp (formBlock inp) kick fs
    unfold runScript
    rw [hmsgs, hfb]
    simp
  · intro inp v h
    rcases hB : budgetCheck inp.budget_input with ⟨bm, be, bs⟩
    rcases participantsCheck_cases inp.expected_participants_input with
      ⟨_, hP⟩ | ⟨hid, hP⟩ | ⟨_, hP⟩ <;>
      rw [formBlock_of_checks inp _ _ _ _ _ _ hP hB] at h <;> simp at h
    exact ⟨hid, h.symm⟩

/-- **C10** witness: `"+10"` and `" 10 "` draw the whole-number error, and
the bound count for `"10"` comes from the digit string itself. -/
theorem c10_isdigit_rejects_sign_and_space_witness :
    (Msg.error "❌ Expected Participants must be a whole number." ∈
       (runScript { sampleInput with expected_participants_input := "+10" } (.ok ⟨none⟩)
          noFile).msgs) ∧
    (Msg.error "❌ Expected Participants must be a whole number." ∈
       (runScript { sampleInput with expected_participants_input := " 10 " } (.ok ⟨none⟩)
          noFile).msgs) ∧
    (pyIsdigit ("10" : String) = true ∧
     (10 : Int) = digitsVal ("10" : String)) :=
  ⟨c10_isdigit_rejects_sign_and_space.2.2.2.2.1
     { sampleInput with expected_participants_input := "+10" } (.ok ⟨none⟩) noFile
     (by decide) (by decide),
   c10_isdigit_rejects_sign_and_space.2.2.2.2.1
     { sampleInput with expected_participants_input := " 10 " } (.ok ⟨none⟩) noFile
     (by decide) (by decide),
   c10_isdigit_rejects_sign_and_space.2.2.2.2.2
     { sampleInput with expected_participants_input := "10" } 10 (by decide)⟩

end EventPlanner
